import Mathlib

/-! Shallow embedding of `src/app/services/rag_pipeline.py` (`RAGPipeline.rag_answer`)
from the Asistente-Cognitivo-de-Campo repository.

Modelling conventions:
* Python strings are Lean `String`s (both are sequences of Unicode code points;
  `len` is `String.length`, slicing `s[:n]` is `pyTake s n`, `+` is `++`).
* Python floats (`score`, `temperature`) are carried as `ℚ`: the pipeline never
  computes with them, it only passes them through, so any carrier type is faithful.
* A search-result document (a Python dict) is the structure `Doc`; absent keys are
  `none`.  A source-info entry (a Python dict built key by key) is an association
  list `List (String × JVal)` so that key presence/absence is observable.
* Exceptions are modelled by `Except String`: the `String` is `str(e)`, the
  exception's message, which is all `rag_answer`'s handler ever inspects.
  The two gateway clients (`AzureSearchClient.search_documents_text_only` and
  `AzureOpenAIClient.generate_response`) are external collaborators, passed in as
  arbitrary `Except`-valued functions.
* Python's `str.lower` is modelled by `String.toLower` (ASCII case folding); the
  only needle it is used with, "rate limit", is ASCII.
-/

/-- Python string slicing `s[:n]`: the first `n` code points of `s`. -/
def pyTake (s : String) (n : Nat) : String := ⟨s.data.take n⟩

/-- `startsWithL hay needle`: `needle` is a prefix of `hay` (on char lists). -/
def startsWithL (hay needle : List Char) : Bool :=
  match needle with
  | [] => true
  | n :: ns =>
    match hay with
    | [] => false
    | h :: hs => h = n && startsWithL hs ns

/-- `containsL needle hay`: `needle` occurs contiguously inside `hay`.
Models Python's `needle in hay` on strings (char-list level). -/
def containsL (needle : List Char) : List Char → Bool
  | [] => needle.isEmpty
  | h :: hs => startsWithL (h :: hs) needle || containsL needle hs

/-- Python `needle in hay` for strings. -/
def strContains (hay needle : String) : Bool := containsL needle.data hay.data

/-- Python `s.lower()`, modelled as ASCII case folding char by char (the only
needle it is ever compared against, "rate limit", is ASCII). -/
def pyLower (s : String) : String := ⟨s.data.map Char.toLower⟩

/-- Python `hay.startswith(needle)` for strings. -/
def strStartsWith (hay needle : String) : Bool := startsWithL hay.data needle.data

/-- A JSON-ish value stored in a source-info dict: a string or a number. -/
inductive JVal : Type
  | s (v : String)
  | n (v : ℚ)
deriving DecidableEq, Repr

/-- A retrieved search document, as the dict the Search Gateway returns.
`none` models an absent key (`doc.get(k)` missing / `"k" in doc` false). -/
structure Doc where
  content : Option String := none
  source : Option String := none
  score : Option ℚ := none
  pageNumber : Option Int := none
  path : Option String := none
deriving DecidableEq, Repr

/-- The dict returned by `rag_answer`: `{"answer": ..., "sources": [...]}`.
Each source entry is itself a dict, kept as an association list. -/
structure AnswerResult where
  answer : String
  sources : List (List (String × JVal))
deriving DecidableEq, Repr

/-- `MAX_CHARS_PER_CHUNK = 2000` (rag_pipeline.py line 76). -/
def MAX_CHARS_PER_CHUNK : Nat := 2000

/-- `MAX_TOTAL_CONTEXT = 6000` (rag_pipeline.py line 77). -/
def MAX_TOTAL_CONTEXT : Nat := 6000

/-- The truncation marker `"... [texto truncado]"` appended on truncation. -/
def truncMarker : String := "... [texto truncado]"

/-- Per-chunk truncation (rag_pipeline.py lines 88-89):
`if len(content) > MAX_CHARS_PER_CHUNK: content = content[:MAX_CHARS_PER_CHUNK] + "... [texto truncado]"`. -/
def truncatePerChunk (content : String) : String :=
  if content.length > MAX_CHARS_PER_CHUNK then
    pyTake content MAX_CHARS_PER_CHUNK ++ truncMarker
  else content

/-- The context-building loop of `rag_answer` (rag_pipeline.py lines 82-103),
with the accumulated `context_chunks` and `total_chars` made explicit.
Returning the accumulator models `break`. -/
def contextChunksLoop : List Doc → List String → Nat → List String
  | [], context_chunks, _ => context_chunks
  | doc :: rest, context_chunks, total_chars =>
    let content := doc.content.getD ""
    if content = "" then
      contextChunksLoop rest context_chunks total_chars
    else
      let content := truncatePerChunk content
      let chunk_size := content.length
      if total_chars + chunk_size > MAX_TOTAL_CONTEXT then
        if context_chunks ≠ [] then
          context_chunks
        else
          context_chunks ++ [pyTake content MAX_TOTAL_CONTEXT ++ truncMarker]
      else
        contextChunksLoop rest (context_chunks ++ [content]) (total_chars + chunk_size)

/-- The `context_chunks` list `rag_answer` builds from the search results
(rag_pipeline.py lines 79-103: starts from `[]` with `total_chars = 0`). -/
def context_chunks_of (search_results : List Doc) : List String :=
  contextChunksLoop search_results [] 0

/-- Instrumentation twin of `contextChunksLoop` with identical control structure:
`true` iff the loop takes the empty-bundle hard-truncation branch
(rag_pipeline.py lines 97-100). -/
def hardTruncLoop : List Doc → List String → Nat → Bool
  | [], _, _ => false
  | doc :: rest, context_chunks, total_chars =>
    let content := doc.content.getD ""
    if content = "" then
      hardTruncLoop rest context_chunks total_chars
    else
      let content := truncatePerChunk content
      let chunk_size := content.length
      if total_chars + chunk_size > MAX_TOTAL_CONTEXT then
        if context_chunks ≠ [] then
          false
        else
          true
      else
        hardTruncLoop rest (context_chunks ++ [content]) (total_chars + chunk_size)

/-- Whether `rag_answer`'s context building takes the hard-truncation branch. -/
def hard_trunc_taken (search_results : List Doc) : Bool :=
  hardTruncLoop search_results [] 0

/-- The source-info dict built per original search result
(rag_pipeline.py lines 122-131): `{"source": ..., "score": ...}` with `"path"`
added only when present. -/
def source_info_of (doc : Doc) : List (String × JVal) :=
  let base := [("source", JVal.s (doc.source.getD "Unknown")),
               ("score", JVal.n (doc.score.getD 0))]
  match doc.path with
  | some p => base ++ [("path", JVal.s p)]
  | none => base

/-- The fixed system prompt (rag_pipeline.py lines 30-38). -/
def system_prompt : String :=
  "Eres un asistente especializado para field engineers de dispositivos biomédicos. \nTu función es ayudar a los técnicos a encontrar información en los manuales técnicos y de usuario.\n\nINSTRUCCIONES:\n- Usa ÚNICAMENTE la información proporcionada en el contexto de los manuales.\n- Si el contexto no contiene información suficiente para responder la pregunta, di claramente: \"No encontré información suficiente en los manuales para responder esta pregunta.\"\n- Proporciona respuestas claras, concisas y técnicas.\n- Si mencionas procedimientos, sé específico sobre los pasos.\n- Si hay información sobre modelos o números de parte, inclúyela en tu respuesta."

/-- Fixed answer when the search returns no results (rag_pipeline.py line 70). -/
def noResultsAnswer : String :=
  "No se encontró información relevante en los manuales para responder tu pregunta. Por favor, intenta reformularla o usar términos más específicos."

/-- Fixed answer when documents were found but had no usable text
(rag_pipeline.py line 107). -/
def noUsableTextAnswer : String :=
  "Se encontraron documentos pero no contenían texto útil. Por favor, intenta otra pregunta."

/-- The rate-limit-specific marker the rate-limit answer starts with. -/
def rateLimitMarker : String := "⚠️ **Límite de tasa alcanzado**"

/-- The `except` clause of `rag_answer` (rag_pipeline.py lines 138-153), applied
to `str(e)`: classify by message text, return the structured answer. -/
def handleError (error_message : String) : AnswerResult :=
  if strContains error_message "Límite de tasa alcanzado"
      || strContains (pyLower error_message) "rate limit" then
    { answer := "⚠️ **Límite de tasa alcanzado**\n\n" ++ error_message
        ++ "\n\nPor favor, espera un momento antes de hacer otra pregunta.",
      sources := [] }
  else
    { answer := "❌ **Error al procesar tu pregunta**\n\n" ++ error_message
        ++ "\n\nPor favor, intenta de nuevo o verifica tu configuración de Azure.",
      sources := [] }

/-- Type of the Search Gateway: `search_documents_text_only(query, top_k)`,
which may raise (modelled by `Except.error` carrying the message). -/
abbrev SearchFn : Type := String → Nat → Except String (List Doc)

/-- Type of the Generation Gateway:
`generate_response(system_prompt, user_message, context_chunks, temperature)`. -/
abbrev GenFn : Type := String → String → List String → ℚ → Except String String

/-- The `try` block of `rag_answer` (rag_pipeline.py lines 60-136): a gateway
exception propagates out as `Except.error`. -/
def rag_answer_body (search : SearchFn) (gen : GenFn)
    (user_question : String) (top_k : Nat) (temperature : ℚ) :
    Except String AnswerResult :=
  match search user_question top_k with
  | .error e => .error e
  | .ok search_results =>
    if search_results.isEmpty then
      .ok { answer := noResultsAnswer, sources := [] }
    else
      let context_chunks := context_chunks_of search_results
      if context_chunks.isEmpty then
        .ok { answer := noUsableTextAnswer, sources := [] }
      else
        match gen system_prompt user_question context_chunks temperature with
        | .error e => .error e
        | .ok answer =>
          .ok { answer := answer, sources := search_results.map source_info_of }

/-- `RAGPipeline.rag_answer` (rag_pipeline.py lines 40-153): the `try` block
wrapped by the `except Exception` clause, so the caller always receives an
`AnswerResult`. -/
def rag_answer (search : SearchFn) (gen : GenFn)
    (user_question : String) (top_k : Nat) (temperature : ℚ) : AnswerResult :=
  match rag_answer_body search gen user_question top_k temperature with
  | .ok r => r
  | .error e => handleError e

/-- Instrumentation: how many times `rag_answer` invokes
`generate_response` (0 or 1), following the same control flow. -/
def generate_calls (search : SearchFn) (user_question : String) (top_k : Nat) : Nat :=
  match search user_question top_k with
  | .error _ => 0
  | .ok search_results =>
    if search_results.isEmpty then 0
    else if (context_chunks_of search_results).isEmpty then 0
    else 1

/-- Aggregate character length of a chunk list. -/
def totalLen (chunks : List String) : Nat := (chunks.map String.length).sum

/-- The non-empty passage contents, in their original order: the contents the
context-building loop does not skip (its `if not content: continue`). -/
def nonEmptyContents : List Doc → List String
  | [] => []
  | doc :: rest =>
    if doc.content.getD "" = "" then nonEmptyContents rest
    else doc.content.getD "" :: nonEmptyContents rest

/-! ## Basic string lemmas -/

lemma strData_append (s t : String) : (s ++ t).data = s.data ++ t.data := rfl

lemma strLength_data (s : String) : s.length = s.data.length := rfl

lemma strLength_append (s t : String) : (s ++ t).length = s.length + t.length := by
  rw [strLength_data, strLength_data, strLength_data, strData_append, List.length_append]

lemma pyTake_length (s : String) (n : Nat) : (pyTake s n).length = min n s.length := by
  rw [strLength_data, strLength_data]
  show (s.data.take n).length = min n s.data.length
  exact List.length_take n s.data

lemma truncMarker_length : truncMarker.length = 20 := rfl

lemma length_truncatePerChunk_le (c : String) :
    (truncatePerChunk c).length ≤ MAX_CHARS_PER_CHUNK + truncMarker.length := by
  unfold truncatePerChunk
  split
  · rw [strLength_append, pyTake_length]
    omega
  · rename_i h
    simp only [not_lt] at h
    omega

lemma startsWithL_append (p r : List Char) : startsWithL (p ++ r) p = true := by
  induction p with
  | nil => simp [startsWithL]
  | cons h t ih => simp [startsWithL, ih]

lemma containsL_append_right (s t n : List Char) (h : containsL n t = true) :
    containsL n (s ++ t) = true := by
  induction s with
  | nil => simpa using h
  | cons c cs ih => simp [containsL, ih]

/-! ## Context-builder loop invariants -/

lemma contextChunksLoop_all_empty : ∀ (docs : List Doc) (acc : List String) (total : Nat),
    (∀ d ∈ docs, d.content.getD "" = "") → contextChunksLoop docs acc total = acc := by
  intro docs
  induction docs with
  | nil => intro acc total _; rfl
  | cons doc rest ih =>
    intro acc total hall
    have hd : doc.content.getD "" = "" := hall doc (by simp)
    simp only [contextChunksLoop, hd, if_pos]
    exact ih acc total (fun d hdm => hall d (List.mem_cons_of_mem _ hdm))

lemma contextChunksLoop_shape : ∀ (docs : List Doc) (acc : List String) (total : Nat),
    total = totalLen acc → total ≤ MAX_TOTAL_CONTEXT →
    ∃ k, contextChunksLoop docs acc total
      = acc ++ List.map truncatePerChunk ((nonEmptyContents docs).take k) := by
  intro docs
  induction docs with
  | nil =>
    intro acc total _ _
    exact ⟨0, by simp [contextChunksLoop, nonEmptyContents]⟩
  | cons doc rest ih =>
    intro acc total hinv hle
    by_cases hc : doc.content.getD "" = ""
    · obtain ⟨k, hk⟩ := ih acc total hinv hle
      exact ⟨k, by simp [contextChunksLoop, hc, nonEmptyContents, hk]⟩
    · by_cases hbig : total + (truncatePerChunk (doc.content.getD "")).length > MAX_TOTAL_CONTEXT
      · rcases eq_or_ne acc ([] : List String) with hacc | hacc
        · exfalso
          subst hacc
          have h0 : total = 0 := by simpa [totalLen] using hinv
          have h1 := length_truncatePerChunk_le (doc.content.getD "")
          rw [truncMarker_length] at h1
          have h2 : (truncatePerChunk (doc.content.getD "")).length ≤ 2020 := by
            simpa [MAX_CHARS_PER_CHUNK] using h1
          have h3 : total + (truncatePerChunk (doc.content.getD "")).length > 6000 := by
            simpa [MAX_TOTAL_CONTEXT] using hbig
          omega
        · refine ⟨0, ?_⟩
          simp [contextChunksLoop, hc, hbig, hacc]
      · have hle' : total + (truncatePerChunk (doc.content.getD "")).length
            ≤ MAX_TOTAL_CONTEXT := by omega
        have hinv' : total + (truncatePerChunk (doc.content.getD "")).length
            = totalLen (acc ++ [truncatePerChunk (doc.content.getD "")]) := by
          simp [totalLen, hinv]
        obtain ⟨k, hk⟩ := ih (acc ++ [truncatePerChunk (doc.content.getD "")]) _ hinv' hle'
        refine ⟨k + 1, ?_⟩
        simp only [contextChunksLoop, hc, hbig, if_neg, if_pos, ite_false, ite_true]
        rw [hk]
        simp [nonEmptyContents, hc, List.append_assoc]

lemma contextChunksLoop_totalLen : ∀ (docs : List Doc) (acc : List String) (total : Nat),
    total = totalLen acc → total ≤ MAX_TOTAL_CONTEXT →
    totalLen (contextChunksLoop docs acc total) ≤ MAX_TOTAL_CONTEXT := by
  intro docs
  induction docs with
  | nil =>
    intro acc total hinv hle
    simpa [contextChunksLoop, ← hinv] using hle
  | cons doc rest ih =>
    intro acc total hinv hle
    by_cases hc : doc.content.getD "" = ""
    · simpa [contextChunksLoop, hc] using ih acc total hinv hle
    · by_cases hbig : total + (truncatePerChunk (doc.content.getD "")).length > MAX_TOTAL_CONTEXT
      · rcases eq_or_ne acc ([] : List String) with hacc | hacc
        · exfalso
          subst hacc
          have h0 : total = 0 := by simpa [totalLen] using hinv
          have h1 := length_truncatePerChunk_le (doc.content.getD "")
          rw [truncMarker_length] at h1
          have h2 : (truncatePerChunk (doc.content.getD "")).length ≤ 2020 := by
            simpa [MAX_CHARS_PER_CHUNK] using h1
          have h3 : total + (truncatePerChunk (doc.content.getD "")).length > 6000 := by
            simpa [MAX_TOTAL_CONTEXT] using hbig
          omega
        · simp only [contextChunksLoop, hc, hbig, if_neg, if_pos, ite_false, ite_true, hacc]
          simp [hacc, ← hinv]
          exact hle
      · have hle' : total + (truncatePerChunk (doc.content.getD "")).length
            ≤ MAX_TOTAL_CONTEXT := by omega
        have hinv' : total + (truncatePerChunk (doc.content.getD "")).length
            = totalLen (acc ++ [truncatePerChunk (doc.content.getD "")]) := by
          simp [totalLen, hinv]
        have := ih (acc ++ [truncatePerChunk (doc.content.getD "")]) _ hinv' hle'
        simpa [contextChunksLoop, hc, hbig] using this

lemma hardTruncLoop_false : ∀ (docs : List Doc) (acc : List String) (total : Nat),
    total = totalLen acc → hardTruncLoop docs acc total = false := by
  intro docs
  induction docs with
  | nil => intro acc total _; rfl
  | cons doc rest ih =>
    intro acc total hinv
    by_cases hc : doc.content.getD "" = ""
    · simpa [hardTruncLoop, hc] using ih acc total hinv
    · by_cases hbig : total + (truncatePerChunk (doc.content.getD "")).length > MAX_TOTAL_CONTEXT
      · rcases eq_or_ne acc ([] : List String) with hacc | hacc
        · exfalso
          subst hacc
          have h0 : total = 0 := by simpa [totalLen] using hinv
          have h1 := length_truncatePerChunk_le (doc.content.getD "")
          rw [truncMarker_length] at h1
          have h2 : (truncatePerChunk (doc.content.getD "")).length ≤ 2020 := by
            simpa [MAX_CHARS_PER_CHUNK] using h1
          have h3 : total + (truncatePerChunk (doc.content.getD "")).length > 6000 := by
            simpa [MAX_TOTAL_CONTEXT] using hbig
          omega
        · simp [hardTruncLoop, hc, hbig, hacc]
      · have hinv' : total + (truncatePerChunk (doc.content.getD "")).length
            = totalLen (acc ++ [truncatePerChunk (doc.content.getD "")]) := by
          simp [totalLen, hinv]
        simpa [hardTruncLoop, hc, hbig] using
          ih (acc ++ [truncatePerChunk (doc.content.getD "")]) _ hinv'

/-! ## `rag_answer` path lemmas -/

lemma handleError_sources (e : String) : (handleError e).sources = [] := by
  unfold handleError
  split <;> rfl

lemma isEmpty_false_of_ne_nil {α : Type} {l : List α} (h : l ≠ []) : l.isEmpty = false := by
  cases l with
  | nil => exact absurd rfl h
  | cons a t => rfl

lemma rag_answer_of_search_error (search : SearchFn) (gen : GenFn)
    (q : String) (k : Nat) (t : ℚ) (e : String) (h : search q k = Except.error e) :
    rag_answer search gen q k t = handleError e := by
  simp [rag_answer, rag_answer_body, h]

lemma rag_answer_of_gen_error (search : SearchFn) (gen : GenFn)
    (q : String) (k : Nat) (t : ℚ) (docs : List Doc) (e : String)
    (h : search q k = Except.ok docs) (hne : docs ≠ [])
    (hch : context_chunks_of docs ≠ [])
    (hg : gen system_prompt q (context_chunks_of docs) t = Except.error e) :
    rag_answer search gen q k t = handleError e := by
  simp [rag_answer, rag_answer_body, h, isEmpty_false_of_ne_nil hne,
    isEmpty_false_of_ne_nil hch, hg]

lemma rag_answer_of_gen_ok (search : SearchFn) (gen : GenFn)
    (q : String) (k : Nat) (t : ℚ) (docs : List Doc) (a : String)
    (h : search q k = Except.ok docs) (hne : docs ≠ [])
    (hch : context_chunks_of docs ≠ [])
    (hg : gen system_prompt q (context_chunks_of docs) t = Except.ok a) :
    rag_answer search gen q k t = { answer := a, sources := docs.map source_info_of } := by
  simp [rag_answer, rag_answer_body, h, isEmpty_false_of_ne_nil hne,
    isEmpty_false_of_ne_nil hch, hg]

lemma strStartsWith_append (p r : String) : strStartsWith (p ++ r) p = true := by
  simp [strStartsWith, strData_append, startsWithL_append]

/-! ## Claim theorems -/

/-- C5: if the Search Gateway returns an empty result set, `rag_answer` returns
immediately with the fixed "no relevant information found" answer and empty
sources, and the Generation Gateway is never invoked (zero calls). -/
theorem rag_answer_empty_search_short_circuits (search : SearchFn) (gen : GenFn)
    (q : String) (k : Nat) (t : ℚ) (h : search q k = Except.ok []) :
    rag_answer search gen q k t = { answer := noResultsAnswer, sources := [] } ∧
    generate_calls search q k = 0 := by
  constructor
  · simp [rag_answer, rag_answer_body, h]
  · simp [generate_calls, h]

theorem rag_answer_empty_search_short_circuits_witness :
    rag_answer (fun _ _ => Except.ok []) (fun _ _ _ _ => Except.ok "unused") "q" 3 1
      = { answer := noResultsAnswer, sources := [] } ∧
    generate_calls (fun _ _ => Except.ok []) "q" 3 = 0 :=
  rag_answer_empty_search_short_circuits _ _ "q" 3 1 rfl

/-- C8: if the Search Gateway returns a non-empty result set in which every
passage's content is empty or absent, `rag_answer` returns the fixed
"documents found but no usable text" answer with empty sources, without
calling the Generation Gateway. -/
theorem rag_answer_all_empty_contents (search : SearchFn) (gen : GenFn)
    (q : String) (k : Nat) (t : ℚ) (docs : List Doc)
    (h : search q k = Except.ok docs) (hne : docs ≠ [])
    (hall : ∀ d ∈ docs, d.content.getD "" = "") :
    rag_answer search gen q k t = { answer := noUsableTextAnswer, sources := [] } ∧
    generate_calls search q k = 0 := by
  have hempty : context_chunks_of docs = [] := contextChunksLoop_all_empty docs [] 0 hall
  constructor
  · simp [rag_answer, rag_answer_body, h, isEmpty_false_of_ne_nil hne, hempty]
  · simp [generate_calls, h, isEmpty_false_of_ne_nil hne, hempty]

theorem rag_answer_all_empty_contents_witness :
    rag_answer (fun _ _ => Except.ok [{ content := some "" }])
        (fun _ _ _ _ => Except.ok "unused") "q" 3 1
      = { answer := noUsableTextAnswer, sources := [] } ∧
    generate_calls (fun _ _ => Except.ok [{ content := some "" }]) "q" 3 = 0 :=
  rag_answer_all_empty_contents _ _ "q" 3 1 _ rfl (by decide) (by decide)

/-- C2: for every sequence of retrieved passages, the aggregate character
length of the context-chunk list is at most `MAX_TOTAL_CONTEXT` (6000); in the
single-chunk hard-truncation case it is exactly `MAX_TOTAL_CONTEXT` plus the
truncation-marker length (a case that in fact never arises, so the second
part holds vacuously). -/
theorem rag_answer_context_total_bounded (search_results : List Doc) :
    (hard_trunc_taken search_results = false →
      totalLen (context_chunks_of search_results) ≤ MAX_TOTAL_CONTEXT) ∧
    (hard_trunc_taken search_results = true →
      totalLen (context_chunks_of search_results)
        = MAX_TOTAL_CONTEXT + truncMarker.length) := by
  constructor
  · intro _
    exact contextChunksLoop_totalLen search_results [] 0 rfl (by simp)
  · intro h
    rw [hard_trunc_taken, hardTruncLoop_false search_results [] 0 rfl] at h
    exact absurd h (by simp)

theorem rag_answer_context_total_bounded_witness :
    totalLen (context_chunks_of [{ content := some "hello" }]) ≤ MAX_TOTAL_CONTEXT :=
  (rag_answer_context_total_bounded [{ content := some "hello" }]).1 rfl

/-- C6: for every non-empty sequence of retrieved passages, the context-chunk
list preserves the relative order of the included passages: it is the image
under per-chunk truncation of a subsequence of the non-empty passage contents
in their original order. -/
theorem rag_answer_context_order_preserved (search_results : List Doc)
    (hne : search_results ≠ []) :
    ∃ sel : List String, List.Sublist sel (nonEmptyContents search_results) ∧
      context_chunks_of search_results = List.map truncatePerChunk sel := by
  obtain ⟨k, hk⟩ := contextChunksLoop_shape search_results [] 0 rfl (by simp)
  exact ⟨(nonEmptyContents search_results).take k, List.take_sublist k _, by simpa using hk⟩

theorem rag_answer_context_order_preserved_witness :
    ∃ sel : List String,
      List.Sublist sel (nonEmptyContents [{ content := some "abc" }]) ∧
      context_chunks_of [{ content := some "abc" }] = List.map truncatePerChunk sel :=
  rag_answer_context_order_preserved [{ content := some "abc" }] (List.cons_ne_nil _ _)

/-- C7: a passage content longer than `MAX_CHARS_PER_CHUNK` (2000) yields the
candidate chunk made of its first 2000 characters followed by the truncation
marker (so of length 2000 plus the marker length); content of length at most
2000 passes through unchanged before the aggregate check. -/
theorem rag_answer_per_chunk_truncation (content : String) :
    (content.length > MAX_CHARS_PER_CHUNK →
      truncatePerChunk content = pyTake content MAX_CHARS_PER_CHUNK ++ truncMarker ∧
      (truncatePerChunk content).length = MAX_CHARS_PER_CHUNK + truncMarker.length) ∧
    (content.length ≤ MAX_CHARS_PER_CHUNK → truncatePerChunk content = content) := by
  constructor
  · intro h
    constructor
    · simp [truncatePerChunk, h]
    · rw [truncatePerChunk, if_pos h, strLength_append, pyTake_length]
      omega
  · intro h
    simp [truncatePerChunk, not_lt.mpr h]

theorem rag_answer_per_chunk_truncation_witness :
    truncatePerChunk "hi" = "hi" :=
  (rag_answer_per_chunk_truncation "hi").2 (by decide)

/-- C9 (counterexample to the claim as stated): there is no sequence of
retrieved passages on which the empty-bundle hard-truncation branch executes. -/
theorem hard_trunc_branch_unreachable :
    ¬ ∃ search_results : List Doc, hard_trunc_taken search_results = true := by
  rintro ⟨docs, hd⟩
  rw [hard_trunc_taken, hardTruncLoop_false docs [] 0 rfl] at hd
  exact Bool.false_ne_true hd

/-- C9 (amended): for every sequence of retrieved passages the empty-bundle
hard-truncation branch does not execute: after per-chunk truncation every
candidate chunk is at most 2020 characters, well under `MAX_TOTAL_CONTEXT`,
and when the bundle is still empty the running total is 0, so the first
usable chunk always fits and the branch is dead code. -/
theorem hard_trunc_branch_never_taken (search_results : List Doc) :
    hard_trunc_taken search_results = false :=
  hardTruncLoop_false search_results [] 0 rfl

/-- C1: for every question, top_k and temperature, and for every exception
raised by the Search Gateway or by the Generation Gateway at its call site,
`rag_answer` converts the exception into a structured `AnswerResult`
(the handler's answer, with `sources` the empty list) and never propagates it. -/
theorem rag_answer_never_propagates (search : SearchFn) (gen : GenFn)
    (q : String) (k : Nat) (t : ℚ) (e : String) :
    (search q k = Except.error e →
      rag_answer search gen q k t = handleError e ∧ (handleError e).sources = []) ∧
    (∀ docs : List Doc, search q k = Except.ok docs → docs ≠ [] →
      context_chunks_of docs ≠ [] →
      gen system_prompt q (context_chunks_of docs) t = Except.error e →
      rag_answer search gen q k t = handleError e ∧ (handleError e).sources = []) := by
  refine ⟨fun h => ⟨rag_answer_of_search_error _ _ _ _ _ _ h, handleError_sources e⟩,
    fun docs h hne hch hg =>
      ⟨rag_answer_of_gen_error _ _ _ _ _ _ _ h hne hch hg, handleError_sources e⟩⟩

theorem rag_answer_never_propagates_witness :
    rag_answer (fun _ _ => Except.error "boom") (fun _ _ _ _ => Except.ok "u") "q" 3 1
      = handleError "boom" ∧ (handleError "boom").sources = [] :=
  (rag_answer_never_propagates _ _ "q" 3 1 "boom").1 rfl

/-- C4: whenever the Search Gateway returns at least one result and generation
succeeds, the returned sources list is exactly the image of the original
search results under `source_info_of` (one entry per result, in order); each
entry holds the `"path"` key exactly when the result has a path, and is
independent of the result's content. -/
theorem rag_answer_sources_from_original_results (search : SearchFn) (gen : GenFn)
    (q : String) (k : Nat) (t : ℚ) (docs : List Doc) (a : String)
    (d : Doc) (c : Option String)
    (h : search q k = Except.ok docs) (hne : docs ≠ [])
    (hch : context_chunks_of docs ≠ [])
    (hg : gen system_prompt q (context_chunks_of docs) t = Except.ok a) :
    (rag_answer search gen q k t).sources = docs.map source_info_of ∧
    (rag_answer search gen q k t).sources.length = docs.length ∧
    (source_info_of d).lookup "path" = Option.map JVal.s d.path ∧
    source_info_of { d with content := c } = source_info_of d := by
  have hres := rag_answer_of_gen_ok search gen q k t docs a h hne hch hg
  have e1 : (("path" : String) == "source") = false := by decide
  have e2 : (("path" : String) == "score") = false := by decide
  have e3 : (("path" : String) == "path") = true := by decide
  refine ⟨by rw [hres], by rw [hres]; simp, ?_, by simp [source_info_of]⟩
  cases hp : d.path <;> simp [source_info_of, hp, List.lookup, e1, e2, e3]

theorem rag_answer_sources_from_original_results_witness :
    (rag_answer (fun _ _ => Except.ok [{ content := some "abc" }])
        (fun _ _ _ _ => Except.ok "ans") "q" 3 1).sources
      = List.map source_info_of [{ content := some "abc" }] ∧
    (rag_answer (fun _ _ => Except.ok [{ content := some "abc" }])
        (fun _ _ _ _ => Except.ok "ans") "q" 3 1).sources.length
      = List.length [({ content := some "abc" } : Doc)] ∧
    (source_info_of { content := some "abc", path := some "p/x.pdf" }).lookup "path"
      = Option.map JVal.s (some "p/x.pdf") ∧
    source_info_of { content := some "zzz", path := some "p/x.pdf" }
      = source_info_of { content := some "abc", path := some "p/x.pdf" } :=
  rag_answer_sources_from_original_results _ _ "q" 3 1 _ "ans"
    { content := some "abc", path := some "p/x.pdf" } (some "zzz")
    rfl (by decide) (by decide) rfl

/-- C10: on the success path, each sources entry defaults `"source"` to
`"Unknown"` and `"score"` to `0.0` when the original result lacks those keys,
and never contains a `"pageNumber"` key even when the result has one. -/
theorem rag_answer_source_entry_defaults (search : SearchFn) (gen : GenFn)
    (q : String) (k : Nat) (t : ℚ) (docs : List Doc) (a : String) (d : Doc)
    (h : search q k = Except.ok docs) (hne : docs ≠ [])
    (hch : context_chunks_of docs ≠ [])
    (hg : gen system_prompt q (context_chunks_of docs) t = Except.ok a)
    (hd : d ∈ docs) :
    (rag_answer search gen q k t).sources = docs.map source_info_of ∧
    (source_info_of d).lookup "source" = some (JVal.s (d.source.getD "Unknown")) ∧
    (source_info_of d).lookup "score" = some (JVal.n (d.score.getD 0)) ∧
    (source_info_of d).lookup "pageNumber" = none := by
  have hres := rag_answer_of_gen_ok search gen q k t docs a h hne hch hg
  have e1 : (("score" : String) == "source") = false := by decide
  have e2 : (("score" : String) == "score") = true := by decide
  have e3 : (("pageNumber" : String) == "source") = false := by decide
  have e4 : (("pageNumber" : String) == "score") = false := by decide
  have e5 : (("pageNumber" : String) == "path") = false := by decide
  refine ⟨by rw [hres], ?_, ?_, ?_⟩ <;>
    cases hp : d.path <;> simp [source_info_of, hp, List.lookup, e1, e2, e3, e4, e5]

theorem rag_answer_source_entry_defaults_witness :
    (rag_answer (fun _ _ => Except.ok [{ content := some "abc", pageNumber := some 3 }])
        (fun _ _ _ _ => Except.ok "ans") "q" 3 1).sources
      = List.map source_info_of [{ content := some "abc", pageNumber := some 3 }] ∧
    (source_info_of { content := some "abc", pageNumber := some 3 }).lookup "source"
      = some (JVal.s (Option.getD none "Unknown")) ∧
    (source_info_of { content := some "abc", pageNumber := some 3 }).lookup "score"
      = some (JVal.n (Option.getD none 0)) ∧
    (source_info_of { content := some "abc", pageNumber := some 3 }).lookup "pageNumber"
      = none :=
  rag_answer_source_entry_defaults _ _ "q" 3 1 _ "ans"
    { content := some "abc", pageNumber := some 3 }
    rfl (by decide) (by decide) rfl (by simp)

/-! ## Error-classification lemmas (C3) -/

lemma strAppend_assoc (a b c : String) : a ++ b ++ c = a ++ (b ++ c) := by
  cases a with
  | mk la =>
    cases b with
    | mk lb =>
      cases c with
      | mk lc =>
        show String.mk (la ++ lb ++ lc) = String.mk (la ++ (lb ++ lc))
        rw [List.append_assoc]

lemma handleError_rate_limit (e : String)
    (hcond : (strContains e "Límite de tasa alcanzado"
      || strContains (pyLower e) "rate limit") = true) :
    handleError e =
      { answer := "⚠️ **Límite de tasa alcanzado**\n\n" ++ e
          ++ "\n\nPor favor, espera un momento antes de hacer otra pregunta.",
        sources := [] } := by
  simp [handleError, hcond]

lemma handleError_generic (e : String)
    (h1 : strContains e "Límite de tasa alcanzado" = false)
    (h2 : strContains (pyLower e) "rate limit" = false) :
    handleError e =
      { answer := "❌ **Error al procesar tu pregunta**\n\n" ++ e
          ++ "\n\nPor favor, intenta de nuevo o verifica tu configuración de Azure.",
        sources := [] } := by
  simp [handleError, h1, h2]

/-- C3 (counterexample to the claim as stated): the localized phrase is only
matched case-sensitively.  The message "límite de tasa alcanzado" contains
"Límite de tasa alcanzado" case-insensitively, yet `rag_answer` takes the
generic-error branch, not the rate-limit branch. -/
theorem rag_answer_rate_limit_case_insensitive_counterexample :
    strContains (pyLower "límite de tasa alcanzado")
        (pyLower "Límite de tasa alcanzado") = true ∧
    rag_answer (fun _ _ => Except.ok [{ content := some "abc" }])
        (fun _ _ _ _ => Except.error "límite de tasa alcanzado") "q" 3 1
      = { answer := "❌ **Error al procesar tu pregunta**\n\nlímite de tasa alcanzado\n\nPor favor, intenta de nuevo o verifica tu configuración de Azure.",
          sources := [] } ∧
    strStartsWith (rag_answer (fun _ _ => Except.ok [{ content := some "abc" }])
        (fun _ _ _ _ => Except.error "límite de tasa alcanzado") "q" 3 1).answer
      rateLimitMarker = false := by
  refine ⟨by decide, by decide, by decide⟩

/-- C3 (amended): if the Generation Gateway raises an exception whose message
contains "rate limit" case-insensitively, or contains the localized phrase
"Límite de tasa alcanzado" as an exact (case-sensitive) substring — regardless
of the exception's type, only its message is inspected — then `rag_answer`
returns an answer that starts with the rate-limit marker and mentions waiting,
with empty sources; any other generation exception takes the generic-error
branch. -/
theorem rag_answer_rate_limit_classification (search : SearchFn) (gen : GenFn)
    (q : String) (k : Nat) (t : ℚ) (docs : List Doc) (e : String)
    (h : search q k = Except.ok docs) (hne : docs ≠ [])
    (hch : context_chunks_of docs ≠ [])
    (hg : gen system_prompt q (context_chunks_of docs) t = Except.error e) :
    (strContains e "Límite de tasa alcanzado" = true
        ∨ strContains (pyLower e) "rate limit" = true →
      strStartsWith (rag_answer search gen q k t).answer rateLimitMarker = true ∧
      strContains (rag_answer search gen q k t).answer "espera" = true ∧
      (rag_answer search gen q k t).sources = []) ∧
    (strContains e "Límite de tasa alcanzado" = false →
      strContains (pyLower e) "rate limit" = false →
      strStartsWith (rag_answer search gen q k t).answer
        "❌ **Error al procesar tu pregunta**" = true ∧
      (rag_answer search gen q k t).sources = []) := by
  have hres := rag_answer_of_gen_error search gen q k t docs e h hne hch hg
  rw [hres]
  constructor
  · intro hcase
    have hcond : (strContains e "Límite de tasa alcanzado"
        || strContains (pyLower e) "rate limit") = true := by
      rcases hcase with h1 | h1 <;> simp [h1]
    rw [handleError_rate_limit e hcond]
    refine ⟨?_, ?_, rfl⟩
    · have hdec : ("⚠️ **Límite de tasa alcanzado**\n\n" : String)
          = rateLimitMarker ++ "\n\n" := rfl
      show strStartsWith ("⚠️ **Límite de tasa alcanzado**\n\n" ++ e
        ++ "\n\nPor favor, espera un momento antes de hacer otra pregunta.")
        rateLimitMarker = true
      rw [hdec, strAppend_assoc, strAppend_assoc]
      exact strStartsWith_append _ _
    · have h0 : containsL ("espera".data)
          (("\n\nPor favor, espera un momento antes de hacer otra pregunta." : String).data)
          = true := by decide
      show strContains ("⚠️ **Límite de tasa alcanzado**\n\n" ++ e
        ++ "\n\nPor favor, espera un momento antes de hacer otra pregunta.")
        "espera" = true
      simp only [strContains, strData_append]
      rw [List.append_assoc]
      exact containsL_append_right _ _ _ (containsL_append_right _ _ _ h0)
  · intro h1 h2
    rw [handleError_generic e h1 h2]
    refine ⟨?_, rfl⟩
    have hdec : ("❌ **Error al procesar tu pregunta**\n\n" : String)
        = "❌ **Error al procesar tu pregunta**" ++ "\n\n" := rfl
    show strStartsWith ("❌ **Error al procesar tu pregunta**\n\n" ++ e
      ++ "\n\nPor favor, intenta de nuevo o verifica tu configuración de Azure.")
      "❌ **Error al procesar tu pregunta**" = true
    rw [hdec, strAppend_assoc, strAppend_assoc]
    exact strStartsWith_append _ _

theorem rag_answer_rate_limit_classification_witness :
    strStartsWith (rag_answer (fun _ _ => Except.ok [{ content := some "abc" }])
        (fun _ _ _ _ => Except.error "Error: rate limit exceeded") "q" 3 1).answer
      rateLimitMarker = true ∧
    strContains (rag_answer (fun _ _ => Except.ok [{ content := some "abc" }])
        (fun _ _ _ _ => Except.error "Error: rate limit exceeded") "q" 3 1).answer
      "espera" = true ∧
    (rag_answer (fun _ _ => Except.ok [{ content := some "abc" }])
        (fun _ _ _ _ => Except.error "Error: rate limit exceeded") "q" 3 1).sources
      = [] :=
  (rag_answer_rate_limit_classification _ _ "q" 3 1 _ "Error: rate limit exceeded"
    rfl (by decide) (by decide) rfl).1 (Or.inr (by decide))
